import Mathlib

/-!
Verification development for the multi-model chatbot (`main.py`).

The program keeps an ordered chat transcript in `st.session_state.chat_history`,
sends it to the OpenRouter completion endpoint through `query_openrouter`
(memoized with `st.cache_data`), and appends the reply.  This file embeds the
data model (turns, JSON values, HTTP requests/responses), the completion client
including its exception behaviour, the argument-keyed response cache, and the
per-rerun input handler, and proves the specified properties about them.
-/

/-! JSON values, as produced by `response.json()` and consumed by the Python
subscript chain `json["choices"][0]["message"]["content"]`.  Arrays and objects
are represented by the mutually defined `JList` and `JFields`. -/
mutual

inductive JValue where
  | null
  | bool (b : Bool)
  | num (q : Rat)
  | str (s : String)
  | arr (xs : JList)
  | obj (fields : JFields)
deriving DecidableEq

inductive JList where
  | nil
  | cons (hd : JValue) (tl : JList)
deriving DecidableEq

inductive JFields where
  | nil
  | cons (k : String) (v : JValue) (tl : JFields)
deriving DecidableEq

end

/-- The Python exceptions the completion client can raise or catch.
`unboundLocalError` models reading the local variable `response` before it was
ever assigned (the `except` handler does this when `requests.post` itself
raised, so no response object exists). -/
inductive PyExn where
  | keyError
  | indexError
  | typeError
  | unboundLocalError
deriving DecidableEq

/-- First value bound to a key in a JSON object (Python dict lookup; keys of a
parsed JSON object are unique, so first match is the match). -/
def JFields.lookupKey : JFields → String → Option JValue
  | .nil, _ => none
  | .cons k v tl, key => if k = key then some v else tl.lookupKey key

/-- Element of a JSON array at index `i`. -/
def JList.get : JList → Nat → Option JValue
  | .nil, _ => none
  | .cons hd _, 0 => some hd
  | .cons _ tl, n + 1 => tl.get n

/-- Python `x[key]` with a string key: dict lookup raises `KeyError` when the
key is absent; any non-dict value raises `TypeError`. -/
def JValue.getItem : JValue → String → Except PyExn JValue
  | .obj fs, key =>
    match fs.lookupKey key with
    | some v => .ok v
    | none => .error .keyError
  | _, _ => .error .typeError

/-- Python `x[i]` with an integer index: list indexing raises `IndexError` out
of range; dict lookup with an integer key raises `KeyError` (parsed JSON
objects only have string keys); string indexing yields a one-character string
or `IndexError`; other values raise `TypeError`. -/
def JValue.getIndex : JValue → Nat → Except PyExn JValue
  | .arr xs, i =>
    match xs.get i with
    | some v => .ok v
    | none => .error .indexError
  | .obj _, _ => .error .keyError
  | .str s, i =>
    match s.data.get? i with
    | some c => .ok (.str (String.mk [c]))
    | none => .error .indexError
  | _, _ => .error .typeError

/-- The subscript chain `json["choices"][0]["message"]["content"]` from
`main.py` line 63, with Python's eager exception propagation. -/
def extractReply (body : JValue) : Except PyExn JValue :=
  match body.getItem "choices" with
  | .error e => .error e
  | .ok choices =>
    match choices.getIndex 0 with
    | .error e => .error e
    | .ok first =>
      match first.getItem "message" with
      | .error e => .error e
      | .ok msg => msg.getItem "content"

/-- One chat turn: the dict `{"role": ..., "content": ...}` stored in
`st.session_state.chat_history`.  The role is the string `"user"` or
`"assistant"`; the content is whatever value was stored (the user prompt is
always a string, the assistant content is whatever the client returned). -/
structure Turn where
  role : String
  content : JValue
deriving DecidableEq

/-- The user turn appended at `main.py` line 120. -/
def mkUserTurn (p : String) : Turn := ⟨"user", .str p⟩

/-- The assistant turn appended at `main.py` line 132. -/
def mkAssistantTurn (reply : JValue) : Turn := ⟨"assistant", reply⟩

/-- JSON serialization of one turn, as `requests` serializes the dict. -/
def turnJson (t : Turn) : JValue :=
  .obj (.cons "role" (.str t.role) (.cons "content" t.content .nil))

/-- JSON serialization of the message list. -/
def messagesJson : List Turn → JList
  | [] => .nil
  | t :: ts => .cons (turnJson t) (messagesJson ts)

/-- An outbound HTTP request as `requests.post(url, headers=headers, json=data)`
assembles it. -/
structure HttpRequest where
  url : String
  headers : List (String × String)
  body : JValue
deriving DecidableEq

/-- The response object `requests.post` returns when a response was received:
status code, reason phrase, raw body text, and the result of `response.json()`
(`none` models a body that is not valid JSON, which makes `.json()` raise
`requests.exceptions.JSONDecodeError`, a `RequestException` subclass). -/
structure HttpResponse where
  statusCode : Nat
  reason : String
  text : String
  jsonBody : Option JValue
deriving DecidableEq

/-- Behaviour of the HTTP layer for one request: either `requests.post` raises
a `RequestException` before any response object is bound (connection failure),
or it returns a response object. -/
inductive PostOutcome where
  | raises
  | response (r : HttpResponse)

/-- The fixed endpoint URL (`main.py` line 49). -/
def apiUrl : String := "https://openrouter.ai/api/v1/chat/completions"

/-- The request headers (`main.py` lines 50-54). -/
def requestHeaders (apiKey : String) : List (String × String) :=
  [("Authorization", "Bearer " ++ apiKey),
   ("Content-Type", "application/json"),
   ("X-Title", "Multi-Model Chatbot")]

/-- The JSON request body (`main.py` lines 55-59). -/
def requestBody (modelId : String) (messages : List Turn) : JValue :=
  .obj (.cons "model" (.str modelId)
    (.cons "messages" (.arr (messagesJson messages))
      (.cons "temperature" (.num (7 / 10)) .nil)))

/-- The single POST request `query_openrouter` issues. -/
def buildRequest (apiKey modelId : String) (messages : List Turn) : HttpRequest :=
  ⟨apiUrl, requestHeaders apiKey, requestBody modelId messages⟩

/-- `response.raise_for_status()` raises `HTTPError` exactly for client-error
(4xx) and server-error (5xx) status codes. -/
def raisesForStatus (statusCode : Nat) : Bool :=
  400 ≤ statusCode && statusCode < 600

/-- The f-string built in the `except RequestException` handler
(`main.py` line 65). -/
def apiErrorString (statusCode : Nat) (reason text : String) : String :=
  "❌ API Error: " ++ toString statusCode ++ " " ++ reason ++ " for url: "
    ++ apiUrl ++ "\nDetails: " ++ text

/-- The fixed string returned by the `except KeyError` handler
(`main.py` line 67). -/
def parseErrorString : String :=
  "❌ Error: Could not parse API response or unexpected format."

/-- `query_openrouter` (`main.py` lines 37-67), parameterized by the HTTP
layer's behaviour.  Returns the list of POST requests issued (always exactly
the one built request: the body has a single `requests.post` call on every
path) together with the Python outcome:

* the HTTP layer raises with no response bound → the `except RequestException`
  handler evaluates `response.status_code` and crashes with
  `UnboundLocalError`;
* a 4xx/5xx response → `raise_for_status` raises `HTTPError`
  (a `RequestException`), and the handler formats the API-error string from the
  bound response;
* a response whose body is not valid JSON → `response.json()` raises
  `JSONDecodeError` (a `RequestException`), same handler, same string;
* otherwise the subscript chain runs: a `KeyError` is caught and mapped to the
  fixed parse-error string, any `IndexError`/`TypeError` is uncaught and
  propagates, and on success the first choice's message content is returned
  unmodified. -/
def query_openrouter (http : HttpRequest → PostOutcome) (apiKey modelId : String)
    (messages : List Turn) : List HttpRequest × Except PyExn JValue :=
  let req := buildRequest apiKey modelId messages
  ([req],
    match http req with
    | .raises => .error .unboundLocalError
    | .response r =>
      if raisesForStatus r.statusCode then
        .ok (.str (apiErrorString r.statusCode r.reason r.text))
      else
        match r.jsonBody with
        | none => .ok (.str (apiErrorString r.statusCode r.reason r.text))
        | some body =>
          match extractReply body with
          | .ok reply => .ok reply
          | .error .keyError => .ok (.str parseErrorString)
          | .error e => .error e)

/-- The `st.cache_data` memoization key: the exact argument pair
`(model_id, messages)`. -/
abbrev CacheKey := String × List Turn

/-- The `st.cache_data` store: successful return values keyed by arguments. -/
abbrev Cache := List (CacheKey × JValue)

/-- Cache lookup by argument equality. -/
def cacheLookup : Cache → CacheKey → Option JValue
  | [], _ => none
  | (k, v) :: rest, key => if k = key then some v else cacheLookup rest key

/-- Result of one call through the `st.cache_data` wrapper: the Python outcome,
the cache afterwards, and the POST requests issued by this call. -/
structure CallResult where
  result : Except PyExn JValue
  cache : Cache
  sentRequests : List HttpRequest

/-- The `st.cache_data`-wrapped `query_openrouter`: a hit on the exact
`(model_id, messages)` pair returns the memoized value with no network call;
a miss runs the function, caching the return value (exceptions are not
cached). -/
def cachedQuery (http : HttpRequest → PostOutcome) (apiKey : String) (cache : Cache)
    (modelId : String) (messages : List Turn) : CallResult :=
  match cacheLookup cache (modelId, messages) with
  | some v => ⟨.ok v, cache, []⟩
  | none =>
    let call := query_openrouter http apiKey modelId messages
    match call.2 with
    | .ok v => ⟨.ok v, cache ++ [((modelId, messages), v)], call.1⟩
    | .error e => ⟨.error e, cache, call.1⟩

/-- Session state visible to the handler: the chat history plus the
`st.cache_data` store. -/
structure AppState where
  chat_history : List Turn
  cache : Cache

/-- The fresh session: `chat_history = []` (`main.py` line 106), empty cache. -/
def initialState : AppState := ⟨[], []⟩

/-- The transcript passed to the completion client at `main.py` line 129: the
stored history with the new user turn already appended (line 120). -/
def sentTranscript (history : List Turn) (p : String) : List Turn :=
  history ++ [mkUserTurn p]

/-- Outcome of one rerun of the input handler: the session state afterwards,
the uncaught exception if the script crashed, and the POST requests issued. -/
structure StepOut where
  state : AppState
  raised : Option PyExn
  sentRequests : List HttpRequest

/-- One rerun of the input handler (`main.py` lines 115-136).  `st.chat_input`
yields `none` when nothing was submitted; `if user_prompt:` also skips the
empty string.  Otherwise the user turn is appended, the client is called with
the full history, and the reply is appended — unless the client raises, in
which case the script crashes with the user turn already stored and no
assistant turn. -/
def processPrompt (http : HttpRequest → PostOutcome) (apiKey modelId : String)
    (s : AppState) (userPrompt : Option String) : StepOut :=
  match userPrompt with
  | none => ⟨s, none, []⟩
  | some p =>
    if p = "" then ⟨s, none, []⟩
    else
      let transcript := sentTranscript s.chat_history p
      let call := cachedQuery http apiKey s.cache modelId transcript
      match call.result with
      | .ok reply => ⟨⟨transcript ++ [mkAssistantTurn reply], call.cache⟩, none, call.sentRequests⟩
      | .error e => ⟨⟨transcript, call.cache⟩, some e, call.sentRequests⟩

/-- A sequence of submissions, one rerun each; the Bool records whether any
rerun crashed with an uncaught exception. -/
def processAll (http : HttpRequest → PostOutcome) (apiKey modelId : String) :
    AppState → List String → AppState × Bool
  | s, [] => (s, false)
  | s, p :: ps =>
    let out := processPrompt http apiKey modelId s (some p)
    let rest := processAll http apiKey modelId out.state ps
    (rest.1, out.raised.isSome || rest.2)

/-- The role sequence `["user", "assistant", "user", "assistant", ...]` of
length `2 * n`. -/
def rolesPattern : Nat → List String
  | 0 => []
  | n + 1 => rolesPattern n ++ ["user", "assistant"]

/-- Credential resolution (`main.py` lines 11-17): `st.secrets` is consulted
first (`some v` models a lookup that succeeds with value `v`, `none` a lookup
that raises, caught by `except Exception`); only then is the `.env`-loaded
environment variable consulted. -/
def resolveApiKey (secretsLookup envLookup : Option String) : Option String :=
  match secretsLookup with
  | some v => some v
  | none => envLookup

/-- A well-formed completion body: `{"choices": [{"message": {"content": "Hi!"}}]}`. -/
def sampleSuccessBody : JValue :=
  .obj (.cons "choices"
    (.arr (.cons (.obj (.cons "message" (.obj (.cons "content" (.str "Hi!") .nil)) .nil)) .nil))
    .nil)

/-- A 200 response carrying `sampleSuccessBody`. -/
def sampleSuccessResponse : HttpResponse :=
  ⟨200, "OK", "\x7b\"choices\":[\x7b\"message\":\x7b\"content\":\"Hi!\"\x7d\x7d]\x7d",
   some sampleSuccessBody⟩

/-- An HTTP layer that always answers with `sampleSuccessResponse`. -/
def okHttp : HttpRequest → PostOutcome := fun _ => .response sampleSuccessResponse

/-- An HTTP layer on which `requests.post` always raises with no response. -/
def downHttp : HttpRequest → PostOutcome := fun _ => .raises

/-- A 500 response with a raw error body. -/
def serverErrorResponse : HttpResponse :=
  ⟨500, "Internal Server Error", "upstream exploded", some (.obj .nil)⟩

/-- A 200 response whose body is `{"choices": []}`. -/
def emptyChoicesResponse : HttpResponse :=
  ⟨200, "OK", "\x7b\"choices\":[]\x7d", some (.obj (.cons "choices" (.arr .nil) .nil))⟩

/-- A 304 response whose body is the empty JSON object. -/
def notModifiedResponse : HttpResponse :=
  ⟨304, "Not Modified", "\x7b\x7d", some (.obj .nil)⟩

/-- A 200 response whose body is the empty JSON object (no `choices` key). -/
def noChoicesResponse : HttpResponse :=
  ⟨200, "OK", "\x7b\x7d", some (.obj .nil)⟩

/-- The POST trace of `query_openrouter` is always the single built request. -/
theorem query_openrouter_sends_one (http : HttpRequest → PostOutcome)
    (apiKey modelId : String) (messages : List Turn) :
    (query_openrouter http apiKey modelId messages).1
      = [buildRequest apiKey modelId messages] := rfl

/-- Looking up a key just inserted at the tail succeeds when it was absent. -/
theorem cacheLookup_append_self (c : Cache) (k : CacheKey) (v : JValue)
    (h : cacheLookup c k = none) : cacheLookup (c ++ [(k, v)]) k = some v := by
  induction c with
  | nil => simp [cacheLookup]
  | cons hd tl ih =>
    obtain ⟨a, b⟩ := hd
    by_cases hak : a = k
    · simp [cacheLookup, hak] at h
    · simp only [cacheLookup, if_neg hak, List.cons_append] at h ⊢
      exact ih h

/-- Inserting a different key at the tail does not make an absent key present. -/
theorem cacheLookup_append_ne (c : Cache) (k k' : CacheKey) (v : JValue)
    (h : cacheLookup c k' = none) (hne : k ≠ k') :
    cacheLookup (c ++ [(k, v)]) k' = none := by
  induction c with
  | nil => simp [cacheLookup, hne]
  | cons hd tl ih =>
    obtain ⟨a, b⟩ := hd
    by_cases hak : a = k'
    · simp [cacheLookup, hak] at h
    · simp only [cacheLookup, if_neg hak, List.cons_append] at h ⊢
      exact ih h

/-- A cache hit returns the memoized value, leaves the cache unchanged and
issues no request. -/
theorem cachedQuery_hit (http : HttpRequest → PostOutcome) (apiKey : String)
    (c : Cache) (modelId : String) (messages : List Turn) (v : JValue)
    (h : cacheLookup c (modelId, messages) = some v) :
    cachedQuery http apiKey c modelId messages = ⟨.ok v, c, []⟩ := by
  simp [cachedQuery, h]

/-- A cache miss with a successful call issues the one request and memoizes
the returned value. -/
theorem cachedQuery_miss_ok (http : HttpRequest → PostOutcome) (apiKey : String)
    (c : Cache) (modelId : String) (messages : List Turn) (v : JValue)
    (h : cacheLookup c (modelId, messages) = none)
    (hq : (query_openrouter http apiKey modelId messages).2 = .ok v) :
    cachedQuery http apiKey c modelId messages
      = ⟨.ok v, c ++ [((modelId, messages), v)], [buildRequest apiKey modelId messages]⟩ := by
  simp [cachedQuery, h, hq, query_openrouter_sends_one]

/-- A cache miss with a raising call issues the one request and caches
nothing. -/
theorem cachedQuery_miss_err (http : HttpRequest → PostOutcome) (apiKey : String)
    (c : Cache) (modelId : String) (messages : List Turn) (e : PyExn)
    (h : cacheLookup c (modelId, messages) = none)
    (hq : (query_openrouter http apiKey modelId messages).2 = .error e) :
    cachedQuery http apiKey c modelId messages
      = ⟨.error e, c, [buildRequest apiKey modelId messages]⟩ := by
  simp [cachedQuery, h, hq, query_openrouter_sends_one]

/-- One rerun on a non-empty prompt whose call returns a reply: the user turn
and then the reply turn are appended, and the rerun does not crash. -/
theorem processPrompt_ok (http : HttpRequest → PostOutcome) (apiKey modelId : String)
    (s : AppState) (p : String) (reply : JValue)
    (hp : p ≠ "")
    (hq : (cachedQuery http apiKey s.cache modelId (sentTranscript s.chat_history p)).result
        = .ok reply) :
    processPrompt http apiKey modelId s (some p)
      = ⟨⟨sentTranscript s.chat_history p ++ [mkAssistantTurn reply],
          (cachedQuery http apiKey s.cache modelId (sentTranscript s.chat_history p)).cache⟩,
         none,
         (cachedQuery http apiKey s.cache modelId
           (sentTranscript s.chat_history p)).sentRequests⟩ := by
  simp [processPrompt, hp, hq]

/-- One rerun on a non-empty prompt whose call raises: the user turn stays
appended, no assistant turn is added, and the exception is recorded. -/
theorem processPrompt_err (http : HttpRequest → PostOutcome) (apiKey modelId : String)
    (s : AppState) (p : String) (e : PyExn)
    (hp : p ≠ "")
    (hq : (cachedQuery http apiKey s.cache modelId (sentTranscript s.chat_history p)).result
        = .error e) :
    processPrompt http apiKey modelId s (some p)
      = ⟨⟨sentTranscript s.chat_history p,
          (cachedQuery http apiKey s.cache modelId (sentTranscript s.chat_history p)).cache⟩,
         some e,
         (cachedQuery http apiKey s.cache modelId
           (sentTranscript s.chat_history p)).sentRequests⟩ := by
  simp [processPrompt, hp, hq]

/-- `rolesPattern n` has length `2 * n`. -/
theorem rolesPattern_length (n : Nat) : (rolesPattern n).length = 2 * n := by
  induction n with
  | zero => rfl
  | succ n ih =>
    simp only [rolesPattern, List.length_append, ih, List.length_cons, List.length_nil]
    omega

/-- Crash-free processing of non-empty submissions extends a user/assistant
alternating history by one user/assistant pair per submission. -/
theorem processAll_roles (http : HttpRequest → PostOutcome) (apiKey modelId : String) :
    ∀ (prompts : List String) (s : AppState) (k : Nat),
      (∀ p ∈ prompts, p ≠ "") →
      (processAll http apiKey modelId s prompts).2 = false →
      s.chat_history.map Turn.role = rolesPattern k →
      (processAll http apiKey modelId s prompts).1.chat_history.map Turn.role
        = rolesPattern (k + prompts.length) := by
  intro prompts
  induction prompts with
  | nil =>
    intro s k _ _ hs
    simpa [processAll] using hs
  | cons p ps ih =>
    intro s k hne hok hs
    have hp : p ≠ "" := hne p (List.mem_cons_self p ps)
    rcases hq : (cachedQuery http apiKey s.cache modelId
        (sentTranscript s.chat_history p)).result with e | reply
    · -- the call raised: the rerun crashed, contradicting crash-freeness
      rw [show (processAll http apiKey modelId s (p :: ps)).2
            = ((processPrompt http apiKey modelId s (some p)).raised.isSome
                || (processAll http apiKey modelId
                      (processPrompt http apiKey modelId s (some p)).state ps).2) from rfl,
          processPrompt_err http apiKey modelId s p e hp hq] at hok
      simp at hok
    · -- the call returned a reply: one user/assistant pair is appended
      have hstep := processPrompt_ok http apiKey modelId s p reply hp hq
      have hout : (processAll http apiKey modelId s (p :: ps)).1
            = (processAll http apiKey modelId
                (processPrompt http apiKey modelId s (some p)).state ps).1 := rfl
      have hok2 : (processAll http apiKey modelId
          (processPrompt http apiKey modelId s (some p)).state ps).2 = false := by
        rw [show (processAll http apiKey modelId s (p :: ps)).2
              = ((processPrompt http apiKey modelId s (some p)).raised.isSome
                  || (processAll http apiKey modelId
                        (processPrompt http apiKey modelId s (some p)).state ps).2) from rfl]
          at hok
        exact (Bool.or_eq_false_iff.mp hok).2
      have hroles : (processPrompt http apiKey modelId s (some p)).state.chat_history.map
            Turn.role = rolesPattern (k + 1) := by
        rw [hstep]
        simp [sentTranscript, mkUserTurn, mkAssistantTurn, rolesPattern, hs]
      have hrec := ih (processPrompt http apiKey modelId s (some p)).state (k + 1)
        (fun q hqmem => hne q (List.mem_cons_of_mem p hqmem)) hok2 hroles
      rw [hout, hrec, show k + 1 + ps.length = k + (p :: ps).length from by
        simp only [List.length_cons]; omega]

/-- C1: for every sequence of N user submissions processed by the chat
handler, the Conversation Store (`st.session_state.chat_history`) afterwards
contains exactly 2N turns whose roles alternate user, assistant, user,
assistant, ..., starting with a user turn.  A submission is processed when it
passes the `if user_prompt:` guard (non-empty) and its rerun completes without
an uncaught exception. -/
theorem processed_submissions_alternate (http : HttpRequest → PostOutcome)
    (apiKey modelId : String) (prompts : List String)
    (hne : ∀ p ∈ prompts, p ≠ "")
    (hok : (processAll http apiKey modelId initialState prompts).2 = false) :
    (processAll http apiKey modelId initialState prompts).1.chat_history.length
        = 2 * prompts.length
    ∧ (processAll http apiKey modelId initialState prompts).1.chat_history.map Turn.role
        = rolesPattern prompts.length := by
  have h := processAll_roles http apiKey modelId prompts initialState 0 hne hok rfl
  rw [Nat.zero_add] at h
  refine ⟨?_, h⟩
  have hlen := congrArg List.length h
  simpa [rolesPattern_length] using hlen

/-- C1 witness: two submissions against a healthy endpoint leave four turns,
roles user, assistant, user, assistant. -/
theorem processed_submissions_alternate_witness :
    (processAll okHttp "key" "meta-llama/llama-3-8b-instruct" initialState
        ["Hello", "Again"]).1.chat_history.length = 2 * 2
    ∧ (processAll okHttp "key" "meta-llama/llama-3-8b-instruct" initialState
        ["Hello", "Again"]).1.chat_history.map Turn.role = rolesPattern 2 :=
  processed_submissions_alternate okHttp "key" "meta-llama/llama-3-8b-instruct"
    ["Hello", "Again"] (by decide) (by decide)

/-- C2: the claim says `query_openrouter` returns a string for every behaviour
of the HTTP layer, including a transport failure with no response object.  The
code contradicts this (and its own docstring, which promises a returned
string): when `requests.post` raises before a response is bound, the
`except RequestException` handler evaluates `response.status_code` with
`response` unbound, and the resulting `UnboundLocalError` propagates to the
caller. -/
theorem transport_failure_raises_unbound_local :
    (query_openrouter downHttp "key" "meta-llama/llama-3-8b-instruct"
        [mkUserTurn "Hello"]).2 = .error .unboundLocalError := rfl

/-- C3 counterexample: a 200 response whose body is the well-formed JSON
object with `choices` bound to the empty list is "not the expected completion
payload shape", yet `query_openrouter` does not return the fixed parse-error
string: `["choices"][0]` raises an uncaught `IndexError` and the call
crashes. -/
theorem empty_choices_list_raises_index_error :
    (query_openrouter (fun _ => .response emptyChoicesResponse) "key"
        "meta-llama/llama-3-8b-instruct" [mkUserTurn "Hello"]).2
      = .error .indexError
    ∧ (Except.error PyExn.indexError : Except PyExn JValue)
        ≠ .ok (.str parseErrorString) :=
  ⟨rfl, by simp⟩

/-- C3 amended: for every response that survives `raise_for_status` and whose
JSON body makes the subscript chain fail with a `KeyError` (e.g. the `choices`
key, the `message` key or the `content` key is absent), `query_openrouter`
returns the fixed parse-error string; shape mismatches that raise `IndexError`
or `TypeError` (e.g. an empty `choices` list) instead crash. -/
theorem missing_key_yields_parse_error_string (http : HttpRequest → PostOutcome)
    (apiKey modelId : String) (messages : List Turn) (r : HttpResponse) (body : JValue)
    (hhttp : http (buildRequest apiKey modelId messages) = .response r)
    (hstatus : raisesForStatus r.statusCode = false)
    (hjson : r.jsonBody = some body)
    (hext : extractReply body = .error .keyError) :
    (query_openrouter http apiKey modelId messages).2 = .ok (.str parseErrorString) := by
  simp [query_openrouter, hhttp, hstatus, hjson, hext]

/-- C3 witness: a 200 response whose body is `{}` (no `choices` key) yields
the fixed parse-error string. -/
theorem missing_key_yields_parse_error_string_witness :
    (query_openrouter (fun _ => .response noChoicesResponse) "key"
        "meta-llama/llama-3-8b-instruct" [mkUserTurn "Hello"]).2
      = .ok (.str parseErrorString) :=
  missing_key_yields_parse_error_string (fun _ => .response noChoicesResponse) "key"
    "meta-llama/llama-3-8b-instruct" [mkUserTurn "Hello"] noChoicesResponse
    (.obj .nil) rfl rfl rfl rfl

/-- C4 counterexample: a 304 (non-2xx) response survives `raise_for_status`,
so on a body without the expected fields `query_openrouter` returns the fixed
parse-error string — not a string embedding the status code, reason phrase,
URL and body as the claim demands for every non-2xx status. -/
theorem status_304_not_api_error_string :
    (query_openrouter (fun _ => .response notModifiedResponse) "key"
        "meta-llama/llama-3-8b-instruct" [mkUserTurn "Hello"]).2
      = .ok (.str parseErrorString)
    ∧ parseErrorString ≠ apiErrorString 304 "Not Modified" "\x7b\x7d" :=
  ⟨rfl, by decide⟩

/-- C4 amended: for every request that yields a 4xx or 5xx HTTP status (the
statuses for which `raise_for_status` raises; e.g. a simulated 500),
`query_openrouter` returns the error string
`"❌ API Error: <status> <reason> for url: <URL>\nDetails: <body>"` — which
embeds the status code, the reason phrase, the request URL and the raw
response body — and the handler appends exactly this string to the
Conversation Store as an assistant turn rather than raising a fault. -/
theorem http_4xx_5xx_error_string_appended (http : HttpRequest → PostOutcome)
    (apiKey modelId : String) (s : AppState) (p : String) (r : HttpResponse)
    (hp : p ≠ "")
    (hmiss : cacheLookup s.cache (modelId, sentTranscript s.chat_history p) = none)
    (hhttp : http (buildRequest apiKey modelId (sentTranscript s.chat_history p))
        = .response r)
    (hstatus : 400 ≤ r.statusCode ∧ r.statusCode < 600) :
    (query_openrouter http apiKey modelId (sentTranscript s.chat_history p)).2
        = .ok (.str (apiErrorString r.statusCode r.reason r.text))
    ∧ (processPrompt http apiKey modelId s (some p)).state.chat_history
        = sentTranscript s.chat_history p
            ++ [mkAssistantTurn (.str (apiErrorString r.statusCode r.reason r.text))]
    ∧ (processPrompt http apiKey modelId s (some p)).raised = none := by
  obtain ⟨h4, h6⟩ := hstatus
  have hb : raisesForStatus r.statusCode = true := by
    simp only [raisesForStatus, Bool.and_eq_true, decide_eq_true_eq]
    omega
  have hq : (query_openrouter http apiKey modelId (sentTranscript s.chat_history p)).2
      = .ok (.str (apiErrorString r.statusCode r.reason r.text)) := by
    simp [query_openrouter, hhttp, hb]
  have hcall := cachedQuery_miss_ok http apiKey s.cache modelId
    (sentTranscript s.chat_history p) (.str (apiErrorString r.statusCode r.reason r.text))
    hmiss hq
  have hres : (cachedQuery http apiKey s.cache modelId
      (sentTranscript s.chat_history p)).result
      = .ok (.str (apiErrorString r.statusCode r.reason r.text)) := by rw [hcall]
  refine ⟨hq, ?_, ?_⟩
  · rw [processPrompt_ok http apiKey modelId s p _ hp hres]
  · rw [processPrompt_ok http apiKey modelId s p _ hp hres]

/-- C4 witness: a simulated 500 on the first submission returns the formatted
API-error string and appends it as the assistant turn. -/
theorem http_4xx_5xx_error_string_appended_witness :
    (query_openrouter (fun _ => .response serverErrorResponse) "key"
        "meta-llama/llama-3-8b-instruct"
        (sentTranscript initialState.chat_history "Hello")).2
        = .ok (.str (apiErrorString 500 "Internal Server Error" "upstream exploded"))
    ∧ (processPrompt (fun _ => .response serverErrorResponse) "key"
        "meta-llama/llama-3-8b-instruct" initialState (some "Hello")).state.chat_history
        = sentTranscript initialState.chat_history "Hello"
            ++ [mkAssistantTurn (.str (apiErrorString 500 "Internal Server Error"
                  "upstream exploded"))]
    ∧ (processPrompt (fun _ => .response serverErrorResponse) "key"
        "meta-llama/llama-3-8b-instruct" initialState (some "Hello")).raised = none :=
  http_4xx_5xx_error_string_appended (fun _ => .response serverErrorResponse) "key"
    "meta-llama/llama-3-8b-instruct" initialState "Hello" serverErrorResponse
    (by decide) rfl rfl ⟨by decide, by decide⟩

/-- C5: when the exact `(model_id, messages)` pair is not yet cached and the
call returns a reply, the first call issues the one network request; repeating
the call with the identical pair returns the identical output served from the
memoized result with no network request and no cache change; and calling with
any one new turn appended is a cache miss — it issues a fresh network request
and returns exactly the fresh network result, never the cached reply. -/
theorem memoization_and_cache_key_sensitivity (http : HttpRequest → PostOutcome)
    (apiKey modelId : String) (messages : List Turn) (c : Cache) (t : Turn) (v : JValue)
    (hmiss : cacheLookup c (modelId, messages) = none)
    (hmiss2 : cacheLookup c (modelId, messages ++ [t]) = none)
    (hok : (query_openrouter http apiKey modelId messages).2 = .ok v) :
    (cachedQuery http apiKey c modelId messages).result = .ok v
    ∧ (cachedQuery http apiKey c modelId messages).sentRequests
        = [buildRequest apiKey modelId messages]
    ∧ (cachedQuery http apiKey (cachedQuery http apiKey c modelId messages).cache
          modelId messages).result = .ok v
    ∧ (cachedQuery http apiKey (cachedQuery http apiKey c modelId messages).cache
          modelId messages).sentRequests = []
    ∧ (cachedQuery http apiKey (cachedQuery http apiKey c modelId messages).cache
          modelId messages).cache = (cachedQuery http apiKey c modelId messages).cache
    ∧ (cachedQuery http apiKey (cachedQuery http apiKey c modelId messages).cache
          modelId (messages ++ [t])).sentRequests
        = [buildRequest apiKey modelId (messages ++ [t])]
    ∧ (cachedQuery http apiKey (cachedQuery http apiKey c modelId messages).cache
          modelId (messages ++ [t])).result
        = (query_openrouter http apiKey modelId (messages ++ [t])).2 := by
  have hcall1 := cachedQuery_miss_ok http apiKey c modelId messages v hmiss hok
  have hkey : ((modelId, messages) : CacheKey) ≠ (modelId, messages ++ [t]) := by
    intro hk
    have hmsgs : messages = messages ++ [t] := congrArg Prod.snd hk
    have := congrArg List.length hmsgs
    simp at this
  have hhit : cacheLookup (c ++ [((modelId, messages), v)]) (modelId, messages)
      = some v := cacheLookup_append_self c (modelId, messages) v hmiss
  have hmiss3 : cacheLookup (c ++ [((modelId, messages), v)]) (modelId, messages ++ [t])
      = none := cacheLookup_append_ne c (modelId, messages) (modelId, messages ++ [t])
        v hmiss2 hkey
  have hcall2 := cachedQuery_hit http apiKey (c ++ [((modelId, messages), v)])
    modelId messages v hhit
  refine ⟨by rw [hcall1], by rw [hcall1], ?_, ?_, ?_, ?_, ?_⟩
  · rw [hcall1]; rw [show (CallResult.mk (.ok v) (c ++ [((modelId, messages), v)])
      [buildRequest apiKey modelId messages]).cache
        = c ++ [((modelId, messages), v)] from rfl, hcall2]
  · rw [hcall1]; rw [show (CallResult.mk (.ok v) (c ++ [((modelId, messages), v)])
      [buildRequest apiKey modelId messages]).cache
        = c ++ [((modelId, messages), v)] from rfl, hcall2]
  · rw [hcall1, hcall2]
  · rcases hq2 : (query_openrouter http apiKey modelId (messages ++ [t])).2 with e | w
    · rw [hcall1, cachedQuery_miss_err http apiKey (c ++ [((modelId, messages), v)])
        modelId (messages ++ [t]) e hmiss3 hq2]
    · rw [hcall1, cachedQuery_miss_ok http apiKey (c ++ [((modelId, messages), v)])
        modelId (messages ++ [t]) w hmiss3 hq2]
  · rcases hq2 : (query_openrouter http apiKey modelId (messages ++ [t])).2 with e | w
    · rw [hcall1, cachedQuery_miss_err http apiKey (c ++ [((modelId, messages), v)])
        modelId (messages ++ [t]) e hmiss3 hq2]
    · rw [hcall1, cachedQuery_miss_ok http apiKey (c ++ [((modelId, messages), v)])
        modelId (messages ++ [t]) w hmiss3 hq2]

/-- C5 witness: with an empty cache and a healthy endpoint, the first call on
`[user "Hello"]` goes to the network, the repeat is served from the cache with
no request, and the call with the reply turn appended issues a fresh
request. -/
theorem memoization_and_cache_key_sensitivity_witness :
    (cachedQuery okHttp "key" [] "meta-llama/llama-3-8b-instruct"
        [mkUserTurn "Hello"]).result = .ok (.str "Hi!")
    ∧ (cachedQuery okHttp "key" [] "meta-llama/llama-3-8b-instruct"
        [mkUserTurn "Hello"]).sentRequests
        = [buildRequest "key" "meta-llama/llama-3-8b-instruct" [mkUserTurn "Hello"]]
    ∧ (cachedQuery okHttp "key"
        (cachedQuery okHttp "key" [] "meta-llama/llama-3-8b-instruct"
          [mkUserTurn "Hello"]).cache
        "meta-llama/llama-3-8b-instruct" [mkUserTurn "Hello"]).result = .ok (.str "Hi!")
    ∧ (cachedQuery okHttp "key"
        (cachedQuery okHttp "key" [] "meta-llama/llama-3-8b-instruct"
          [mkUserTurn "Hello"]).cache
        "meta-llama/llama-3-8b-instruct" [mkUserTurn "Hello"]).sentRequests = []
    ∧ (cachedQuery okHttp "key"
        (cachedQuery okHttp "key" [] "meta-llama/llama-3-8b-instruct"
          [mkUserTurn "Hello"]).cache
        "meta-llama/llama-3-8b-instruct" [mkUserTurn "Hello"]).cache
        = (cachedQuery okHttp "key" [] "meta-llama/llama-3-8b-instruct"
            [mkUserTurn "Hello"]).cache
    ∧ (cachedQuery okHttp "key"
        (cachedQuery okHttp "key" [] "meta-llama/llama-3-8b-instruct"
          [mkUserTurn "Hello"]).cache
        "meta-llama/llama-3-8b-instruct"
        ([mkUserTurn "Hello"] ++ [mkAssistantTurn (.str "Hi!")])).sentRequests
        = [buildRequest "key" "meta-llama/llama-3-8b-instruct"
            ([mkUserTurn "Hello"] ++ [mkAssistantTurn (.str "Hi!")])]
    ∧ (cachedQuery okHttp "key"
        (cachedQuery okHttp "key" [] "meta-llama/llama-3-8b-instruct"
          [mkUserTurn "Hello"]).cache
        "meta-llama/llama-3-8b-instruct"
        ([mkUserTurn "Hello"] ++ [mkAssistantTurn (.str "Hi!")])).result
        = (query_openrouter okHttp "key" "meta-llama/llama-3-8b-instruct"
            ([mkUserTurn "Hello"] ++ [mkAssistantTurn (.str "Hi!")])).2 :=
  memoization_and_cache_key_sensitivity okHttp "key" "meta-llama/llama-3-8b-instruct"
    [mkUserTurn "Hello"] [] (mkAssistantTurn (.str "Hi!")) (.str "Hi!") rfl rfl rfl

/-- C6: for every HTTP 2xx response whose body is a completion payload of
shape `{"choices": [{"message": {"content": <string>}}, ...]}` — i.e. the
subscript chain `["choices"][0]["message"]["content"]` reaches a string —
`query_openrouter` returns the first choice's message content unmodified, as
a string. -/
theorem success_returns_first_choice_content (http : HttpRequest → PostOutcome)
    (apiKey modelId : String) (messages : List Turn) (r : HttpResponse)
    (body choices first msg : JValue) (content : String)
    (hhttp : http (buildRequest apiKey modelId messages) = .response r)
    (hstatus : 200 ≤ r.statusCode ∧ r.statusCode < 300)
    (hjson : r.jsonBody = some body)
    (hchoices : body.getItem "choices" = .ok choices)
    (hfirst : choices.getIndex 0 = .ok first)
    (hmsg : first.getItem "message" = .ok msg)
    (hcontent : msg.getItem "content" = .ok (.str content)) :
    (query_openrouter http apiKey modelId messages).2 = .ok (.str content) := by
  obtain ⟨h2, h3⟩ := hstatus
  have hb : raisesForStatus r.statusCode = false := by
    simp only [raisesForStatus, Bool.and_eq_false_iff, decide_eq_false_iff_not, not_le,
      not_lt]
    omega
  have hext : extractReply body = .ok (.str content) := by
    simp only [extractReply, hchoices, hfirst, hmsg, hcontent]
  simp [query_openrouter, hhttp, hb, hjson, hext]

/-- C6 witness: the body `{"choices":[{"message":{"content":"Hi!"}}]}` on a
200 response yields exactly the string `"Hi!"`. -/
theorem success_returns_first_choice_content_witness :
    (query_openrouter okHttp "key" "meta-llama/llama-3-8b-instruct"
        [mkUserTurn "Hello"]).2 = .ok (.str "Hi!") :=
  success_returns_first_choice_content okHttp "key" "meta-llama/llama-3-8b-instruct"
    [mkUserTurn "Hello"] sampleSuccessResponse sampleSuccessBody
    (.arr (.cons (.obj (.cons "message" (.obj (.cons "content" (.str "Hi!") .nil)) .nil))
      .nil))
    (.obj (.cons "message" (.obj (.cons "content" (.str "Hi!") .nil)) .nil))
    (.obj (.cons "content" (.str "Hi!") .nil))
    "Hi!" rfl (by decide) rfl rfl rfl rfl rfl

/-- C7: every call of `query_openrouter` issues exactly one POST, to the fixed
URL `https://openrouter.ai/api/v1/chat/completions`, with headers
`Authorization: Bearer <credential>`, `Content-Type: application/json`,
`X-Title: Multi-Model Chatbot`, and a JSON body binding `model` to the model
id, `messages` to the turn list serialized as role/content pairs, and
`temperature` to 0.7. -/
theorem request_method_url_headers_body (http : HttpRequest → PostOutcome)
    (apiKey modelId : String) (messages : List Turn) :
    (query_openrouter http apiKey modelId messages).1
        = [buildRequest apiKey modelId messages]
    ∧ (buildRequest apiKey modelId messages).url
        = "https://openrouter.ai/api/v1/chat/completions"
    ∧ (buildRequest apiKey modelId messages).headers
        = [("Authorization", "Bearer " ++ apiKey),
           ("Content-Type", "application/json"),
           ("X-Title", "Multi-Model Chatbot")]
    ∧ (buildRequest apiKey modelId messages).body
        = .obj (.cons "model" (.str modelId)
            (.cons "messages" (.arr (messagesJson messages))
              (.cons "temperature" (.num (7 / 10)) .nil)))
    ∧ ∀ t : Turn, turnJson t
        = .obj (.cons "role" (.str t.role) (.cons "content" t.content .nil)) :=
  ⟨rfl, rfl, rfl, rfl, fun _ => rfl⟩

/-- C8: whenever a reply is requested, the transcript passed to the completion
client ends with the most recent user turn, and once the call returns a reply
the assistant turn is appended to exactly that transcript within the same
rerun, before any further input can be processed. -/
theorem transcript_ends_with_user_and_reply_appended (http : HttpRequest → PostOutcome)
    (apiKey modelId : String) (s : AppState) (p : String) (reply : JValue)
    (hp : p ≠ "")
    (hq : (cachedQuery http apiKey s.cache modelId (sentTranscript s.chat_history p)).result
        = .ok reply) :
    (sentTranscript s.chat_history p).getLast? = some (mkUserTurn p)
    ∧ (processPrompt http apiKey modelId s (some p)).state.chat_history
        = sentTranscript s.chat_history p ++ [mkAssistantTurn reply] := by
  constructor
  · simp [sentTranscript]
  · rw [processPrompt_ok http apiKey modelId s p reply hp hq]

/-- C8 witness: the first submission `"Hello"` sends the transcript
`[user "Hello"]`, which ends with that user turn, and the reply `"Hi!"` is
appended right after it. -/
theorem transcript_ends_with_user_and_reply_appended_witness :
    (sentTranscript initialState.chat_history "Hello").getLast?
        = some (mkUserTurn "Hello")
    ∧ (processPrompt okHttp "key" "meta-llama/llama-3-8b-instruct" initialState
        (some "Hello")).state.chat_history
        = sentTranscript initialState.chat_history "Hello"
            ++ [mkAssistantTurn (.str "Hi!")] :=
  transcript_ends_with_user_and_reply_appended okHttp "key"
    "meta-llama/llama-3-8b-instruct" initialState "Hello" (.str "Hi!")
    (by decide) rfl

/-- C9: when the input control yields no message (`user_prompt` is `None` or
the empty string), a rerun leaves the session state — in particular the
Conversation Store — unchanged, raises nothing, and issues no network
request. -/
theorem empty_prompt_leaves_state_unchanged (http : HttpRequest → PostOutcome)
    (apiKey modelId : String) (s : AppState) (userPrompt : Option String)
    (h : userPrompt = none ∨ userPrompt = some "") :
    processPrompt http apiKey modelId s userPrompt = ⟨s, none, []⟩ := by
  rcases h with h | h <;> subst h <;> simp [processPrompt]

/-- C9 witness: a rerun with no submitted message from the fresh session
changes nothing. -/
theorem empty_prompt_leaves_state_unchanged_witness :
    processPrompt okHttp "key" "meta-llama/llama-3-8b-instruct" initialState none
      = ⟨initialState, none, []⟩ :=
  empty_prompt_leaves_state_unchanged okHttp "key" "meta-llama/llama-3-8b-instruct"
    initialState none (Or.inl rfl)

/-- C10: credential resolution is layered with fixed precedence — a
`st.secrets` lookup that succeeds provides the key, and the `.env`-loaded
environment variable is consulted exactly when the secrets lookup raises; a
present secrets value therefore always shadows the environment value. -/
theorem secrets_value_shadows_env (v : String) (envLookup : Option String) :
    resolveApiKey (some v) envLookup = some v
    ∧ resolveApiKey none envLookup = envLookup :=
  ⟨rfl, rfl⟩
